import Mathlib

/-!
Shallow embedding of the pywebagent Browser Interaction & Observation Engine
(`src/pywebagent/env/actions.py`, `src/pywebagent/env/browser.py`,
`src/pywebagent/agent_common.py`) together with theorems settling the
specification claims about it.

Modelling conventions:
* Python's in-place mutation of `EnvState` is rendered as explicit state
  passing: each primitive takes the current `EnvState` and returns the
  updated one, paired with an `Except` value standing for "returned
  normally" versus "raised an exception with this message".
* The live browser (Playwright pages, DOM, screenshots) is rendered as
  explicit data: the outcome of each low-level driver interaction is an
  input to the embedded primitive, and screenshots are pixel arrays.
* Python dictionaries that the claims treat opaquely (`output`) are
  association lists.
-/

/-- Substring test on character lists: `hasPrefixChars pat l` decides whether
`pat` is an initial segment of `l`. -/
def hasPrefixChars : List Char → List Char → Bool
  | [], _ => true
  | _ :: _, [] => false
  | a :: as, b :: bs => a = b && hasPrefixChars as bs

/-- `hasInfixChars pat l` decides whether `pat` occurs contiguously in `l`
(Python's `pat in l`). -/
def hasInfixChars (pat : List Char) : List Char → Bool
  | [] => hasPrefixChars pat []
  | b :: bs => hasPrefixChars pat (b :: bs) || hasInfixChars pat bs

/-- Python's `pat in s` on strings. -/
def strContains (s pat : String) : Bool :=
  hasInfixChars pat.data s.data

/-- Python's `str.lstrip()`: drop leading whitespace. -/
def lstrip (s : String) : String :=
  ⟨s.data.dropWhile Char.isWhitespace⟩

/-- Split a character list on a separator character; the separator is not
kept, empty pieces are (Python `s.split(sep)` for a one-character `sep`). -/
def splitOnChar (sep : Char) : List Char → List (List Char)
  | [] => [[]]
  | c :: cs =>
    if c = sep then [] :: splitOnChar sep cs
    else
      match splitOnChar sep cs with
      | [] => [[c]]
      | l :: ls => (c :: l) :: ls

/-- Python `s.split(sep)` for a one-character separator, on strings. -/
def strSplit (s : String) (sep : Char) : List String :=
  (splitOnChar sep s.data).map (fun l => ⟨l⟩)

/-- `EnvState` from `pywebagent/env/actions.py`. -/
structure EnvState where
  has_successfully_completed : Bool := false
  has_failed : Bool := false
  output : List (String × String) := []
  timeframe : Nat := 0
  log_history : List String := []
deriving Repr, DecidableEq

namespace Actions

/-- `Actions.finish` from `pywebagent/env/actions.py` (lines 25-28):
sets the completion flags from `did_succeed` and stores `output`;
`reason` is accepted but unused. -/
def finish (s : EnvState) (did_succeed : Bool)
    (output : List (String × String)) (reason : String) : EnvState :=
  { s with
    has_successfully_completed := did_succeed
    has_failed := !did_succeed
    output := output }

end Actions

/-- A Playwright-level exception as observed by the Python code: whether it
is a `PlaywrightTimeoutError`, and its `str(e)` text. -/
structure PWError where
  isTimeout : Bool
  msg : String
deriving Repr, DecidableEq

namespace Actions

/-- `Actions._is_context_destroyed_exception` (actions.py lines 177-179). -/
def _is_context_destroyed_exception (e : PWError) : Bool :=
  strContains e.msg "Execution context was destroyed"

/-- `Actions._is_unstable_element_exception` (actions.py lines 181-189):
splits `str(e)` on newlines and inspects the last two lines.  (CPython would
raise `IndexError` on a message with fewer than two lines; driver timeout
messages always have several, and the model returns `false` there.) -/
def _is_unstable_element_exception (e : PWError) : Bool :=
  let e_lines := strSplit e.msg '\n'
  e.isTimeout
    && strContains (e_lines.getD (e_lines.length - 2) "")
        "element is not stable - waiting..."
    && strContains (e_lines.getD (e_lines.length - 1) "") "=============="

/-- The browser-side behaviour of one `click` attempt, indexed by the `force`
flag of the attempt: whether a file chooser dialog opens during the attempt
(`expect_file_chooser` succeeding rather than timing out), and the outcome of
the underlying `_visualized_interact(..., "click", ...)` call (`none` =
returned normally, `some e` = raised `e`). -/
structure ClickEnv where
  chooserOpens : Bool → Bool
  clickResult : Bool → Option PWError

/-- The exception text raised at actions.py lines 107-109 when a file
chooser opens during `click`. -/
def unexpected_file_chooser_message : String :=
  "filechooser event was triggered unexpectedly. Consider using upload_files() instead of click() for this element."

/-- `Actions.click` (actions.py lines 69-109), with the DOM interaction
abstracted to its outcome in `env`.  Returns the updated `EnvState` (Python
mutates it in place, so updates survive a raised exception), the normal/raised
outcome, and the number of forced retries performed (instrumentation used to
state the retry-at-most-once property; it does not influence the result). -/
def click (env : ClickEnv) (s : EnvState) (item_id : Nat) (log_message : String)
    (force : Bool) : EnvState × Except String Unit × Nat :=
  let s := if log_message = "" then s
    else { s with log_history := s.log_history ++ [log_message] }
  if env.chooserOpens force then
    -- The `with expect_file_chooser` block exits without a timeout, so
    -- control falls through to the unconditional raise at line 107.
    (s, Except.error unexpected_file_chooser_message, 0)
  else
    -- `expect_file_chooser` raised `PlaywrightTimeoutError` (lines 88-101).
    match env.clickResult force with
    | none => (s, Except.ok (), 0)
    | some e =>
      if h : _is_unstable_element_exception e && !force then
        let r := click env s item_id "" true
        (r.1, r.2.1, r.2.2 + 1)
      else if _is_context_destroyed_exception e then
        -- `self.page.reload(); return` (lines 96-99)
        (s, Except.ok (), 0)
      else
        (s, Except.error e.msg, 0)
termination_by (if force then 0 else 1)
decreasing_by
  simp only [Bool.and_eq_true, Bool.not_eq_eq_eq_not, Bool.not_true] at h
  simp [h.2]

/-- `Actions.scroll` (actions.py lines 111-122): appends the log message
unconditionally, validates the direction, then scrolls by one viewport
height (the DOM effect is outside the model). -/
def scroll (s : EnvState) (direction : String) (log_message : String) :
    EnvState × Except String Unit :=
  let s := { s with log_history := s.log_history ++ [log_message] }
  if direction ≠ "up" ∧ direction ≠ "down" then
    (s, Except.error "direction must be either \x27up\x27 or \x27down\x27")
  else
    (s, Except.ok ())

/-- `Actions.combobox_select` (actions.py lines 124-133): appends the log
message unconditionally, attempts `select_option`, and on any failure falls
back to a forced click on the same element.  `selectResult` and
`fallbackClickResult` are the outcomes of the two `_visualized_interact`
calls. -/
def combobox_select (selectResult fallbackClickResult : Option PWError)
    (s : EnvState) (item_id : Nat) (option : String) (log_message : String) :
    EnvState × Except String Unit :=
  let s := { s with log_history := s.log_history ++ [log_message] }
  match selectResult with
  | none => (s, Except.ok ())
  | some _ =>
    match fallbackClickResult with
    | none => (s, Except.ok ())
    | some e2 => (s, Except.error e2.msg)

/-- `Actions.input_text` (actions.py lines 135-142): appends the log message
unconditionally, then fills (if `clear_before_input`) or types the text;
the DOM interaction is abstracted to its outcome `interactResult`. -/
def input_text (interactResult : Option PWError) (s : EnvState)
    (item_id : Nat) (text : String) (clear_before_input : Bool)
    (log_message : String) : EnvState × Except String Unit :=
  let s := { s with log_history := s.log_history ++ [log_message] }
  match interactResult with
  | none => (s, Except.ok ())
  | some e => (s, Except.error e.msg)

/-- Stands for the `PlaywrightTimeoutError` text raised by
`expect_file_chooser(timeout=2000)` when no file chooser appears. -/
def file_chooser_timeout_text : String :=
  "Timeout 2000ms exceeded while waiting for event \"filechooser\""

/-- `Actions.upload_files` (actions.py lines 144-175): appends the log
message unconditionally; clicks the target (retrying once, forced, on an
unstable-element failure) while waiting for a file chooser; supplies the
files when the chooser opens; if it never opens, re-raises the click failure
when one occurred, otherwise the timeout itself. -/
def upload_files (clickResult forcedClickResult : Option PWError)
    (chooserOpens : Bool) (s : EnvState) (item_id : Nat)
    (files : List String) (log_message : String) :
    EnvState × Except String Unit :=
  let s := { s with log_history := s.log_history ++ [log_message] }
  match clickResult with
  | none =>
    if chooserOpens then (s, Except.ok ())
    else (s, Except.error file_chooser_timeout_text)
  | some e =>
    if _is_unstable_element_exception e then
      match forcedClickResult with
      | none =>
        if chooserOpens then (s, Except.ok ())
        else (s, Except.error file_chooser_timeout_text)
      | some e2 => (s, Except.error e2.msg)
    else
      (s, Except.error e.msg)

end Actions

/-- One RGBA pixel of a decoded screenshot (`np.array` of the image after
`convert("RGBA")` in browser.py). -/
structure Pixel where
  r : Nat
  g : Nat
  b : Nat
  a : Nat
deriving Repr, DecidableEq

/-- `_is_screenshot_empty` (browser.py lines 40-44): true iff the minimum
over the RGB channels (alpha excluded) of every pixel is 255, i.e. every RGB
channel of every pixel is saturated.  The PNG decoding step is modelled by
taking the pixel array directly. -/
def _is_screenshot_empty (screenshot : List Pixel) : Bool :=
  screenshot.all (fun p => p.r = 255 && p.g = 255 && p.b = 255)

/-- The observable state of the live page when `get_observation` runs:
its URL, the pixels of `page.screenshot()`, the elements the marking script
finds (id and description), and the engine `env_state`. -/
structure PageState where
  url : String
  screenshot : List Pixel
  markable : List (Nat × String)
  env_state : EnvState
deriving Repr, DecidableEq

/-- `WebpageObservation` (browser.py lines 30-37); `additional_observations`
is subsumed into `marked_elements`-style data since no claim touches it. -/
structure WebpageObservation where
  url : String
  error_message : Option String
  screenshot : List Pixel
  marked_elements : List (Nat × String)
  env_state : EnvState
deriving Repr, DecidableEq

/-- `_mark_elements` (browser.py lines 143-179): runs the marking script in
every frame and collects the id-to-element map.  The DOM traversal lives in
injected JavaScript outside the Python source, so it is abstracted as the
`markable` data carried by the page. -/
def _mark_elements (page : PageState) : List (Nat × String) :=
  page.markable

/-- Events recording the order in which `get_observation` computes the parts
of an observation. -/
inductive ObsEvent
  | markElements
  | screenshot
  | blankCheck
  | buildResult
deriving Repr, DecidableEq, BEq

/-- `BrowserEnv.get_observation` (browser.py lines 192-209): marks the
elements, captures the screenshot, raises `WebpageEmptyException` when the
screenshot is empty or fully blank, and otherwise assembles the
`WebpageObservation`.  The returned event list records the order of these
computations. -/
def get_observation (page : PageState) :
    Except String WebpageObservation × List ObsEvent :=
  let marked_elements := _mark_elements page
  let screenshot := page.screenshot
  let events := [ObsEvent.markElements, ObsEvent.screenshot, ObsEvent.blankCheck]
  if screenshot.length = 0 || _is_screenshot_empty screenshot then
    (Except.error "Screenshot is empty! Likely the webpage did not fully load.",
     events)
  else
    (Except.ok
      { url := page.url
        error_message := none
        screenshot := screenshot
        marked_elements := marked_elements
        env_state := page.env_state },
     events ++ [ObsEvent.buildResult])

/-- One frame of a Python traceback, with the fields `BrowserEnv.step`
inspects. -/
structure PyFrame where
  co_name : String
  co_filename : String
  lineno : Nat
deriving Repr, DecidableEq

/-- A Python exception raised by `exec(code, ...)`: its traceback frames
(outermost first, as walked by `tb_next`) and its `str(e)` text. -/
structure PyExc where
  tb : List PyFrame
  msg : String
deriving Repr, DecidableEq

/-- The traceback walk of `BrowserEnv.step` (browser.py lines 91-102): find
the first frame of the dynamically executed script (`co_name == "<module>"`
and `co_filename == "<string>"`) and extract the left-stripped source line at
its line number (1-based); `"N/A"` when no such frame exists. -/
def line_of_code (code : String) (tb : List PyFrame) : String :=
  match tb.find? (fun f => f.co_name = "<module>" && f.co_filename = "<string>") with
  | some f => lstrip ((strSplit code '\n').getD (f.lineno - 1) "")
  | none => "N/A"

/-- The error string built at browser.py lines 104-106. -/
def exec_error_message (code : String) (e : PyExc) : String :=
  "Error in execution of script. At line: \"" ++ line_of_code code e.tb
    ++ "\". Error: \"" ++ e.msg ++ "\""

/-- The parse result of `urllib.parse.urlparse` restricted to the components
`BrowserEnv.step` uses (`params` stays folded into `path`, which leaves the
strip-query round trip unchanged). -/
structure UrlParts where
  scheme : String
  netloc : String
  path : String
  query : String
  fragment : String
deriving Repr, DecidableEq

/-- Characters CPython allows in a URL scheme. -/
def isSchemeChar (c : Char) : Bool :=
  c.isAlpha || c.isDigit || c = '+' || c = '-' || c = '.'

/-- Split a character list at the first occurrence of `sep`
(Python `s.split(sep, 1)` when it returns two parts). -/
def splitFirst (sep : Char) : List Char → Option (List Char × List Char)
  | [] => none
  | c :: cs =>
    if c = sep then some ([], cs)
    else (splitFirst sep cs).map (fun p => (c :: p.1, p.2))

/-- `urllib.parse.urlparse`, modelled on CPython `urlsplit`: extract the
scheme (lowercased, only when well formed), then the netloc after `//`
(delimited by `/`, `?` or `#`), then the fragment after the first `#`, then
the query after the first `?`. -/
def urlparse (url : String) : UrlParts :=
  let chars := url.data
  let (scheme, rest) :=
    match splitFirst ':' chars with
    | some (before, after) =>
      if before ≠ [] ∧ (before.headD ' ').isAlpha ∧ before.all isSchemeChar then
        (before.map Char.toLower, after)
      else ([], chars)
    | none => ([], chars)
  let (netloc, rest) :=
    if rest.take 2 = ['/', '/'] then
      let after2 := rest.drop 2
      (after2.takeWhile (fun c => ¬ (c = '/' ∨ c = '?' ∨ c = '#')),
       after2.dropWhile (fun c => ¬ (c = '/' ∨ c = '?' ∨ c = '#')))
    else ([], rest)
  let (rest, fragment) :=
    match splitFirst '#' rest with
    | some (before, after) => (before, after)
    | none => (rest, [])
  let (path, query) :=
    match splitFirst '?' rest with
    | some (before, after) => (before, after)
    | none => (rest, [])
  { scheme := ⟨scheme⟩
    netloc := ⟨netloc⟩
    path := ⟨path⟩
    query := ⟨query⟩
    fragment := ⟨fragment⟩ }

/-- `urllib.parse.urlunparse` (via CPython `urlunsplit`) on the parts above:
reattach `//netloc` when a netloc exists (or the path begins with `//`),
then the scheme, query and fragment when non-empty. -/
def urlunparse (p : UrlParts) : String :=
  let url := p.path.data
  let url :=
    if p.netloc.data ≠ [] ∨ (url ≠ [] ∧ url.take 2 = ['/', '/']) then
      '/' :: '/' :: p.netloc.data
        ++ (if url ≠ [] ∧ url.take 1 ≠ ['/'] then '/' :: url else url)
    else url
  let url := if p.scheme.data ≠ [] then p.scheme.data ++ ':' :: url else url
  let url := if p.query.data ≠ [] then url ++ '?' :: p.query.data else url
  ⟨if p.fragment.data ≠ [] then url ++ '#' :: p.fragment.data else url⟩

/-- `urlunparse(urlparse(u)._replace(query=""))` from browser.py lines
115-117: the URL with its query component stripped. -/
def stripQuery (url : String) : String :=
  urlunparse { urlparse url with query := "" }

/-- The navigation-detection condition of `BrowserEnv.step` (browser.py
lines 113-119): `_wait_for_load` is invoked iff the post-step page URL and
the stored pre-step URL differ once their query components are stripped. -/
def navigationWaitTriggered (current_url page_url : String) : Bool :=
  stripQuery page_url ≠ stripQuery current_url

/-- `BrowserEnv.step` (browser.py lines 80-132) for the single-tab case:
`execExc` is the outcome of `exec(code, context, context)` (`none` = no
exception), `current_url` the engine pre-step URL, and `page` the live page
after execution.  Returns the raised-or-returned observation and whether the
navigation load wait ran.  Exceptions from `exec` are converted to
`error_message` on the returned observation; an exception from
`get_observation` propagates out of `step`. -/
def BrowserEnv.step (code : String) (execExc : Option PyExc)
    (current_url : String) (page : PageState) :
    Except String WebpageObservation × Bool :=
  let error_message := execExc.map (exec_error_message code)
  let wait := navigationWaitTriggered current_url page.url
  let page := { page with env_state :=
    { page.env_state with timeframe := page.env_state.timeframe + 1 } }
  match (get_observation page).1 with
  | Except.error e => (Except.error e, wait)
  | Except.ok obs => (Except.ok { obs with error_message := error_message }, wait)

/-- `TASK_STATUS` from `pywebagent/agent_common.py`. -/
inductive TASK_STATUS
  | IN_PROGRESS
  | SUCCESS
  | FAILED
deriving Repr, DecidableEq

/-- `get_task_status` from `pywebagent/agent_common.py` (lines 181-187). -/
def get_task_status (s : EnvState) : TASK_STATUS :=
  if s.has_successfully_completed then TASK_STATUS.SUCCESS
  else if s.has_failed then TASK_STATUS.FAILED
  else TASK_STATUS.IN_PROGRESS

/-- Stands for the `UnboundLocalError` raised by the budget-exhaustion
warning (`logger.warning(f"Reached {i} actions ...")`, agent_common.py line
203) when the loop body never ran: the f-string reads the loop variable
`i`, which is unbound when `range(max_actions)` was empty. -/
def unbound_loop_variable_error : String :=
  "UnboundLocalError: local variable \x27i\x27 referenced before assignment"

/-- The body of the `for i in range(max_actions)` loop of `act`
(`pywebagent/agent_common.py`, lines 196-204), with the oracle call and the
browser step fused into `steps : Nat → EnvState`, giving the `env_state`
carried by the observation produced at step index `i`.  `fuel` is the number
of remaining iterations and `obs` the env state of the observation currently
in hand (from `reset` or the previous step).  When the budget is exhausted
the warning at line 203 reads the loop variable: if no iteration ever ran
(the current index is still 0) that read raises `UnboundLocalError`;
otherwise the warning succeeds and `act` returns `FAILED` with the current
output. -/
def actLoop (steps : Nat → EnvState) : Nat → Nat → EnvState →
    Except String (TASK_STATUS × List (String × String))
  | i, 0, obs =>
    if i = 0 then Except.error unbound_loop_variable_error
    else Except.ok (TASK_STATUS.FAILED, obs.output)
  | i, fuel + 1, _ =>
    let obs := steps i
    let task_status := get_task_status obs
    if task_status = TASK_STATUS.SUCCESS ∨ task_status = TASK_STATUS.FAILED then
      Except.ok (task_status, obs.output)
    else
      actLoop steps (i + 1) fuel obs

/-- `act` from `pywebagent/agent_common.py` (lines 190-204): runs at most
`max_actions` steps, stopping at the first terminal status; if a positive
budget is exhausted it returns `FAILED` with the output of the observation
in hand, and a zero budget raises at the warning line.  `initObs` is the
env state of the observation returned by `reset`. -/
def act (steps : Nat → EnvState) (max_actions : Nat) (initObs : EnvState) :
    Except String (TASK_STATUS × List (String × String)) :=
  actLoop steps 0 max_actions initObs

theorem hasPrefixChars_self_append (pat t : List Char) :
    hasPrefixChars pat (pat ++ t) = true := by
  induction pat with
  | nil => simp [hasPrefixChars]
  | cons a as ih => simp [hasPrefixChars, ih]

theorem hasInfixChars_append (pat l1 l2 : List Char) :
    hasInfixChars pat (l1 ++ pat ++ l2) = true := by
  induction l1 with
  | nil =>
    cases h : pat ++ l2 with
    | nil =>
      have hp : pat = [] := by
        cases pat with
        | nil => rfl
        | cons a as => simp at h
      simp only [List.nil_append]
      rw [h]
      subst hp
      simp [hasInfixChars, hasPrefixChars]
    | cons b bs =>
      simp only [List.nil_append]
      rw [h, hasInfixChars, ← h, hasPrefixChars_self_append]
      simp
  | cons c cs ih =>
    simp only [List.cons_append]
    rw [hasInfixChars]
    simp only [List.append_assoc] at ih ⊢
    rw [ih]
    simp

theorem strContains_of_parts (a pat b : String) :
    strContains (a ++ pat ++ b) pat = true := by
  unfold strContains
  rw [String.data_append, String.data_append]
  exact hasInfixChars_append pat.data a.data b.data

theorem string_eq_of_data (a b : String) (h : a.data = b.data) : a = b := by
  cases a; cases b; exact congrArg String.mk h

/-- The result of `BrowserEnv.step` on a page whose screenshot is non-empty
and not blank: the observation is returned normally, with the error message
of the executed script attached. -/
theorem step_ok_of_nonblank (code : String) (execExc : Option PyExc)
    (current_url : String) (page : PageState)
    (hlen : page.screenshot.length ≠ 0)
    (hblank : _is_screenshot_empty page.screenshot = false) :
    (BrowserEnv.step code execExc current_url page).1 =
      Except.ok
        { url := page.url
          error_message := execExc.map (exec_error_message code)
          screenshot := page.screenshot
          marked_elements := page.markable
          env_state :=
            { page.env_state with timeframe := page.env_state.timeframe + 1 } } := by
  unfold BrowserEnv.step get_observation _mark_elements
  simp [hlen, hblank]

/-- A forced click never recurses: its retry count is zero. -/
theorem click_forced_no_retry (env : Actions.ClickEnv) (s : EnvState)
    (item_id : Nat) (log_message : String) :
    (Actions.click env s item_id log_message true).2.2 = 0 := by
  unfold Actions.click
  by_cases hc : env.chooserOpens true
  · simp [hc]
  · simp only [hc, Bool.false_eq_true, if_false]
    cases hres : env.clickResult true with
    | none => simp
    | some e =>
      simp only [Bool.not_true, Bool.and_false]
      by_cases hd : Actions._is_context_destroyed_exception e <;> simp [hd]

/-- The log-history effect of a forced `click`: the message is appended
exactly when non-empty, whatever the interaction does. -/
theorem click_forced_log_history (env : Actions.ClickEnv) (s : EnvState)
    (item_id : Nat) (log_message : String) :
    (Actions.click env s item_id log_message true).1.log_history =
      s.log_history ++ (if log_message = "" then [] else [log_message]) := by
  unfold Actions.click
  by_cases hc : env.chooserOpens true
  · by_cases hm : log_message = "" <;> simp [hc, hm]
  · simp only [hc, Bool.false_eq_true, if_false]
    cases hres : env.clickResult true with
    | none => by_cases hm : log_message = "" <;> simp [hm]
    | some e =>
      simp only [Bool.not_true, Bool.and_false]
      by_cases hd : Actions._is_context_destroyed_exception e <;>
        by_cases hm : log_message = "" <;> simp [hd, hm]

/-- The log-history effect of `click`: the message is appended exactly when
non-empty, once, whatever the interaction does (the forced retry appends
nothing, its log message being empty). -/
theorem click_log_history (env : Actions.ClickEnv) (s : EnvState)
    (item_id : Nat) (log_message : String) (force : Bool) :
    (Actions.click env s item_id log_message force).1.log_history =
      s.log_history ++ (if log_message = "" then [] else [log_message]) := by
  cases force with
  | true => exact click_forced_log_history env s item_id log_message
  | false =>
    unfold Actions.click
    by_cases hc : env.chooserOpens false
    · by_cases hm : log_message = "" <;> simp [hc, hm]
    · simp only [hc, Bool.false_eq_true, if_false]
      cases hres : env.clickResult false with
      | none => by_cases hm : log_message = "" <;> simp [hm]
      | some e =>
        by_cases hu : Actions._is_unstable_element_exception e
        · simp only [hu, Bool.not_false, Bool.and_true, Bool.true_and, dif_pos]
          by_cases hm : log_message = "" <;>
            simp [hm, click_forced_log_history env _ item_id ""]
        · simp only [hu, Bool.false_and, Bool.and_self]
          by_cases hd : Actions._is_context_destroyed_exception e <;>
            by_cases hm : log_message = "" <;> simp [hu, hd, hm]

theorem hasPrefixChars_mono (pat l t : List Char)
    (h : hasPrefixChars pat l = true) : hasPrefixChars pat (l ++ t) = true := by
  induction pat generalizing l with
  | nil => simp [hasPrefixChars]
  | cons a as ih =>
    cases l with
    | nil => simp [hasPrefixChars] at h
    | cons b bs =>
      simp only [hasPrefixChars, Bool.and_eq_true, decide_eq_true_eq] at h
      simp only [List.cons_append, hasPrefixChars, Bool.and_eq_true,
        decide_eq_true_eq]
      exact ⟨h.1, ih bs h.2⟩

theorem hasInfixChars_nil_pat (l : List Char) : hasInfixChars [] l = true := by
  induction l with
  | nil => simp [hasInfixChars, hasPrefixChars]
  | cons c cs ih => simp [hasInfixChars, hasPrefixChars, ih]

theorem hasInfixChars_mono_right (pat l t : List Char)
    (h : hasInfixChars pat l = true) : hasInfixChars pat (l ++ t) = true := by
  induction l with
  | nil =>
    have hp : pat = [] := by
      cases pat with
      | nil => rfl
      | cons a as => simp [hasInfixChars, hasPrefixChars] at h
    subst hp
    simpa using hasInfixChars_nil_pat t
  | cons c cs ih =>
    simp only [hasInfixChars, Bool.or_eq_true] at h
    simp only [List.cons_append, hasInfixChars, Bool.or_eq_true]
    rcases h with h | h
    · left
      have := hasPrefixChars_mono pat (c :: cs) t h
      simpa using this
    · right
      exact ih h

theorem hasInfixChars_mono_left (pat t l : List Char)
    (h : hasInfixChars pat l = true) : hasInfixChars pat (t ++ l) = true := by
  induction t with
  | nil => simpa using h
  | cons c cs ih =>
    simp only [List.cons_append, hasInfixChars, Bool.or_eq_true]
    right
    exact ih

/-- Substring containment is preserved by surrounding text. -/
theorem strContains_mono (a m b pat : String)
    (h : strContains m pat = true) :
    strContains (a ++ m ++ b) pat = true := by
  unfold strContains at h ⊢
  rw [String.data_append, String.data_append]
  exact hasInfixChars_mono_right pat.data (a.data ++ m.data) b.data
    (hasInfixChars_mono_left pat.data a.data m.data h)

/-- The retry counter of `click` never exceeds one: the recursion has depth
at most one. -/
theorem click_retries_le_one (env : Actions.ClickEnv) (s : EnvState)
    (item_id : Nat) (log_message : String) (force : Bool) :
    (Actions.click env s item_id log_message force).2.2 ≤ 1 := by
  cases force with
  | true => rw [click_forced_no_retry]; omega
  | false =>
    unfold Actions.click
    by_cases hc : env.chooserOpens false
    · simp [hc]
    · simp only [hc, Bool.false_eq_true, if_false]
      cases hres : env.clickResult false with
      | none => simp
      | some e =>
        by_cases hu : Actions._is_unstable_element_exception e
        · simp only [hu, Bool.not_false, Bool.and_true, Bool.true_and, dif_pos]
          simp [click_forced_no_retry]
        · simp only [hu, Bool.false_and, Bool.and_self]
          by_cases hd : Actions._is_context_destroyed_exception e <;> simp [hd]

/-- A status is terminal iff it is `SUCCESS` or `FAILED`. -/
def terminalStatus (s : EnvState) : Prop :=
  get_task_status s = TASK_STATUS.SUCCESS ∨ get_task_status s = TASK_STATUS.FAILED

instance (s : EnvState) : Decidable (terminalStatus s) := by
  unfold terminalStatus; infer_instance

theorem actLoop_no_terminal (steps : Nat → EnvState) (fuel i : Nat)
    (obs : EnvState)
    (h : ∀ j, j < fuel → ¬ terminalStatus (steps (i + j))) :
    actLoop steps i fuel obs =
      if i + fuel = 0 then Except.error unbound_loop_variable_error
      else Except.ok (TASK_STATUS.FAILED,
        (if fuel = 0 then obs else steps (i + fuel - 1)).output) := by
  induction fuel generalizing i obs with
  | zero => simp [actLoop]
  | succ n ih =>
    have h0 : ¬ terminalStatus (steps i) := by
      have := h 0 (Nat.succ_pos n)
      simpa using this
    rw [actLoop]
    simp only [terminalStatus] at h0
    rw [if_neg h0]
    have := ih (i + 1) (steps i) (fun j hj => by
      have := h (j + 1) (Nat.succ_lt_succ hj)
      simpa [Nat.add_assoc, Nat.add_comm 1 j] using this)
    rw [this]
    have hne1 : ¬ (i + 1 + n = 0) := by omega
    have hne2 : ¬ (i + (n + 1) = 0) := by omega
    rw [if_neg hne1, if_neg hne2]
    rcases Nat.eq_zero_or_pos n with hn | hn
    · subst hn; simp
    · have hne : n ≠ 0 := Nat.pos_iff_ne_zero.mp hn
      simp only [hne, if_false, Nat.succ_ne_zero]
      have hidx : i + 1 + n - 1 = i + (n + 1) - 1 := by omega
      rw [hidx]

theorem actLoop_first_terminal (steps : Nat → EnvState) (fuel i k : Nat)
    (obs : EnvState)
    (hk : k < fuel)
    (hterm : terminalStatus (steps (i + k)))
    (hbefore : ∀ j, j < k → ¬ terminalStatus (steps (i + j))) :
    actLoop steps i fuel obs =
      Except.ok (get_task_status (steps (i + k)), (steps (i + k)).output) := by
  induction fuel generalizing i k obs with
  | zero => omega
  | succ n ih =>
    rw [actLoop]
    rcases Nat.eq_zero_or_pos k with hk0 | hkpos
    · subst hk0
      simp only [Nat.add_zero] at hterm
      simp only [terminalStatus] at hterm
      rw [if_pos hterm]
      simp
    · have h0 : ¬ terminalStatus (steps i) := by
        have := hbefore 0 hkpos
        simpa using this
      simp only [terminalStatus] at h0
      rw [if_neg h0]
      have := ih (i + 1) (k - 1) (steps i) (by omega)
        (by
          have : i + 1 + (k - 1) = i + k := by omega
          rw [this]; exact hterm)
        (fun j hj => by
          have := hbefore (j + 1) (by omega)
          have heq : i + 1 + j = i + (j + 1) := by omega
          rw [heq]; exact this)
      rw [this]
      have : i + 1 + (k - 1) = i + k := by omega
      rw [this]

/-- C1: after any `finish(did_succeed, output, reason)` call,
`has_succeeded` equals `did_succeed`, `has_failed` equals its negation, and
`output` equals the given mapping, regardless of every prior `EnvState`
field; the call is idempotent, and the two terminal flags are never both
true afterwards. -/
theorem c1_finish_terminal_state (s : EnvState) (did_succeed : Bool)
    (output : List (String × String)) (reason : String) :
    (Actions.finish s did_succeed output reason).has_successfully_completed
        = did_succeed ∧
    (Actions.finish s did_succeed output reason).has_failed = !did_succeed ∧
    (Actions.finish s did_succeed output reason).output = output ∧
    Actions.finish (Actions.finish s did_succeed output reason) did_succeed
        output reason = Actions.finish s did_succeed output reason ∧
    ¬((Actions.finish s did_succeed output reason).has_successfully_completed
          = true ∧
      (Actions.finish s did_succeed output reason).has_failed = true) := by
  refine ⟨rfl, rfl, rfl, rfl, ?_⟩
  cases did_succeed <;> simp [Actions.finish]

/-- C10: `finish` modifies only the two terminal flags and `output`;
`timeframe` and `log_history` are untouched, and the `reason` argument has
no effect on the resulting state. -/
theorem c10_finish_frame (s : EnvState) (did_succeed : Bool)
    (output : List (String × String)) (reason reason2 : String) :
    (Actions.finish s did_succeed output reason).timeframe = s.timeframe ∧
    (Actions.finish s did_succeed output reason).log_history = s.log_history ∧
    Actions.finish s did_succeed output reason
      = Actions.finish s did_succeed output reason2 := by
  exact ⟨rfl, rfl, rfl⟩

/-- C2: the `act` loop returns, at the first step whose status is terminal,
that status together with the current `output`; when no step in a positive
budget reaches a terminal status it performs exactly `max_actions` steps and
returns `FAILED` with whatever output the last observation carries; at
budget zero, however, the budget-exhaustion warning reads the unbound loop
variable and `act` raises `UnboundLocalError` instead of returning
`FAILED`. -/
theorem c2_act_stops_on_terminal (steps : Nat → EnvState) (max_actions : Nat)
    (initObs : EnvState) :
    (∀ k, k < max_actions → terminalStatus (steps k) →
      (∀ j, j < k → ¬ terminalStatus (steps j)) →
      act steps max_actions initObs
        = Except.ok (get_task_status (steps k), (steps k).output)) ∧
    (0 < max_actions →
      (∀ j, j < max_actions → ¬ terminalStatus (steps j)) →
      act steps max_actions initObs
        = Except.ok (TASK_STATUS.FAILED, (steps (max_actions - 1)).output)) ∧
    act steps 0 initObs = Except.error unbound_loop_variable_error := by
  refine ⟨?_, ?_, rfl⟩
  · intro k hk hterm hbefore
    unfold act
    have := actLoop_first_terminal steps max_actions 0 k initObs hk
      (by simpa using hterm) (fun j hj => by simpa using hbefore j hj)
    simpa using this
  · intro hpos hnone
    unfold act
    have := actLoop_no_terminal steps max_actions 0 initObs
      (fun j hj => by simpa using hnone j hj)
    have hne : max_actions ≠ 0 := Nat.pos_iff_ne_zero.mp hpos
    simpa [hne] using this

/-- An oracle that never issues a terminal action: every observation keeps
the initial flags. -/
def oracleNeverFinishes : Nat → EnvState := fun _ => {}

/-- An oracle that calls `finish(true, [("result", "ok")], ...)` on its
first step. -/
def oracleFinishesAtOnce : Nat → EnvState := fun _ =>
  { has_successfully_completed := true, output := [("result", "ok")] }

/-- C2 counterexample: with budget 0 and an oracle that never reaches a
terminal status, the claim predicts a `(FAILED, output)` return after zero
steps, but `act` raises `UnboundLocalError` at the warning f-string and
returns nothing. -/
theorem c2_counterexample :
    act oracleNeverFinishes 0 {} = Except.error unbound_loop_variable_error ∧
    ¬ ∃ out, act oracleNeverFinishes 0 {}
        = Except.ok (TASK_STATUS.FAILED, out) := by
  constructor
  · rfl
  · rintro ⟨out, hout⟩
    rw [show act oracleNeverFinishes 0 {}
        = Except.error unbound_loop_variable_error from rfl] at hout
    cases hout

theorem c2_act_stops_on_terminal_witness :
    act oracleNeverFinishes 3 {}
      = Except.ok (TASK_STATUS.FAILED, (oracleNeverFinishes (3 - 1)).output) ∧
    act oracleFinishesAtOnce 1 {}
      = Except.ok (get_task_status (oracleFinishesAtOnce 0),
          (oracleFinishesAtOnce 0).output) := by
  exact ⟨(c2_act_stops_on_terminal oracleNeverFinishes 3 {}).2.1 (by decide)
           (by decide),
         (c2_act_stops_on_terminal oracleFinishesAtOnce 1 {}).1 0 (by decide)
           (by decide) (by decide)⟩

/-- A page whose screenshot is fully blank (every RGB channel saturated). -/
def blankPage : PageState :=
  { url := "https://x.com/a"
    screenshot := [⟨255, 255, 255, 255⟩, ⟨255, 255, 255, 128⟩]
    markable := [(0, "button")]
    env_state := {} }

/-- A page whose screenshot has at least one non-saturated channel. -/
def nonblankPage : PageState :=
  { url := "https://x.com/a"
    screenshot := [⟨0, 0, 0, 255⟩]
    markable := []
    env_state := {} }

/-- C5: whenever a file chooser opens during a `click`, the call raises the
terminal `UnexpectedFileChooser` error telling the caller to use
`upload_files` — whatever the underlying click interaction did — and the
next observation carries an `error_message` mentioning `upload_files`. -/
theorem c5_click_unexpected_file_chooser (env : Actions.ClickEnv)
    (s : EnvState) (item_id : Nat) (log_message : String) (force : Bool)
    (code : String) (tb : List PyFrame) (current_url : String)
    (page : PageState)
    (hchooser : env.chooserOpens force = true)
    (hlen : page.screenshot.length ≠ 0)
    (hblank : _is_screenshot_empty page.screenshot = false) :
    (Actions.click env s item_id log_message force).2.1 =
      Except.error Actions.unexpected_file_chooser_message ∧
    strContains Actions.unexpected_file_chooser_message "upload_files" = true ∧
    ∃ obs,
      (BrowserEnv.step code
          (some ⟨tb, Actions.unexpected_file_chooser_message⟩)
          current_url page).1 = Except.ok obs ∧
      ∃ m, obs.error_message = some m ∧ strContains m "upload_files" = true := by
  refine ⟨?_, by decide, ?_⟩
  · unfold Actions.click
    simp [hchooser]
  · refine ⟨_, step_ok_of_nonblank code _ current_url page hlen hblank, ?_⟩
    refine ⟨exec_error_message code
      ⟨tb, Actions.unexpected_file_chooser_message⟩, rfl, ?_⟩
    unfold exec_error_message
    exact strContains_mono
      ("Error in execution of script. At line: \"" ++ line_of_code code tb
        ++ "\". Error: \"")
      Actions.unexpected_file_chooser_message "\"" "upload_files" (by decide)

theorem c5_click_unexpected_file_chooser_witness :
    (Actions.click ⟨fun _ => true, fun _ => none⟩ {} 3 "open menu" false).2.1 =
      Except.error Actions.unexpected_file_chooser_message ∧
    strContains Actions.unexpected_file_chooser_message "upload_files" = true := by
  have h := c5_click_unexpected_file_chooser ⟨fun _ => true, fun _ => none⟩
    {} 3 "open menu" false "actions.click(3, \"open menu\")" [] "https://x.com/a"
    nonblankPage rfl (by decide) (by decide)
  exact ⟨h.1, h.2.1⟩

/-- A Playwright timeout error matching the unstable-element pattern. -/
def unstableErr : PWError :=
  ⟨true, "Timeout 5000ms exceeded.\nelement is not stable - waiting...\n=============="⟩

/-- A click target that opens no chooser, fails as unstable without force,
and succeeds when forced. -/
def unstableClickEnv : Actions.ClickEnv :=
  ⟨fun _ => false, fun f => if f then none else some unstableErr⟩

/-- C6: a `click` with `force=false` whose interaction fails with the
unstable-element condition (and no file chooser opening) performs exactly one
recursive retry, with `force=true` and an empty log message; and on every
invocation whatsoever the forced retry fires at most once, so `click`
terminates. -/
theorem c6_click_retries_once (env : Actions.ClickEnv) (s : EnvState)
    (item_id : Nat) (log_message : String) (e : PWError) (s1 : EnvState)
    (hchooser : env.chooserOpens false = false)
    (hres : env.clickResult false = some e)
    (hunstable : Actions._is_unstable_element_exception e = true)
    (hs1 : s1 = if log_message = "" then s
      else { s with log_history := s.log_history ++ [log_message] }) :
    (Actions.click env s item_id log_message false).2.2 = 1 ∧
    Actions.click env s item_id log_message false =
      ((Actions.click env s1 item_id "" true).1,
       (Actions.click env s1 item_id "" true).2.1,
       (Actions.click env s1 item_id "" true).2.2 + 1) ∧
    (Actions.click env s item_id log_message false).1.log_history =
      s.log_history ++ (if log_message = "" then [] else [log_message]) ∧
    (∀ (env2 : Actions.ClickEnv) (s2 : EnvState) (item2 : Nat) (m2 : String)
      (f2 : Bool), (Actions.click env2 s2 item2 m2 f2).2.2 ≤ 1) := by
  subst hs1
  refine ⟨?_, ?_, click_log_history env s item_id log_message false,
    fun env2 s2 item2 m2 f2 => click_retries_le_one env2 s2 item2 m2 f2⟩
  · conv_lhs => unfold Actions.click
    simp [hchooser, hres, hunstable, click_forced_no_retry]
  · conv_lhs => unfold Actions.click
    simp [hchooser, hres, hunstable]

theorem c6_click_retries_once_witness :
    (Actions.click unstableClickEnv {} 3 "press the button" false).2.2 = 1 ∧
    Actions._is_unstable_element_exception unstableErr = true := by
  refine ⟨(c6_click_retries_once unstableClickEnv {} 3 "press the button"
    unstableErr _ rfl rfl (by decide) rfl).1, by decide⟩

/-- C8 counterexample: `scroll` with an empty log message still appends an
(empty) entry to `log_history`, so the state does change. -/
theorem c8_counterexample :
    (Actions.scroll {} "down" "").1.log_history ≠ ({} : EnvState).log_history := by
  decide

/-- C8 (amended): each primitive appends its log message to `log_history`
before the interaction is attempted — the append survives every interaction
outcome — but only `click` guards on non-emptiness; `scroll`,
`combobox_select`, `input_text` and `upload_files` append the message
unconditionally, empty or not. -/
theorem c8_log_append_policy (s : EnvState) (env : Actions.ClickEnv)
    (item_id : Nat) (msg direction text opt : String)
    (force clear chooser : Bool)
    (selectRes fallbackRes interactRes clickRes forcedRes : Option PWError)
    (files : List String) :
    (Actions.click env s item_id msg force).1.log_history
      = s.log_history ++ (if msg = "" then [] else [msg]) ∧
    (Actions.scroll s direction msg).1.log_history = s.log_history ++ [msg] ∧
    (Actions.combobox_select selectRes fallbackRes s item_id opt msg).1.log_history
      = s.log_history ++ [msg] ∧
    (Actions.input_text interactRes s item_id text clear msg).1.log_history
      = s.log_history ++ [msg] ∧
    (Actions.upload_files clickRes forcedRes chooser s item_id files msg).1.log_history
      = s.log_history ++ [msg] := by
  refine ⟨click_log_history env s item_id msg force, ?_, ?_, ?_, ?_⟩
  · unfold Actions.scroll
    by_cases h : direction ≠ "up" ∧ direction ≠ "down" <;> simp [h]
  · unfold Actions.combobox_select
    cases selectRes <;> cases fallbackRes <;> simp
  · unfold Actions.input_text
    cases interactRes <;> simp
  · unfold Actions.upload_files
    cases clickRes with
    | none => cases chooser <;> simp
    | some e =>
      by_cases hu : Actions._is_unstable_element_exception e
      · cases forcedRes with
        | none => cases chooser <;> simp [hu]
        | some e2 => simp [hu]
      · simp [hu]

/-- C3 counterexample: when the post-step screenshot is fully blank, the
`WebpageEmptyException` raised inside `get_observation` propagates out of
`BrowserEnv.step` — the caller gets no observation, so an exception raised
during the step does escape to the Loop Driver. -/
theorem c3_counterexample :
    (BrowserEnv.step "actions.click(0, \"press\")" none "https://x.com/a"
        blankPage).1
      = Except.error "Screenshot is empty! Likely the webpage did not fully load." ∧
    ¬ ∃ obs, (BrowserEnv.step "actions.click(0, \"press\")" none
        "https://x.com/a" blankPage).1 = Except.ok obs := by
  have h : (BrowserEnv.step "actions.click(0, \"press\")" none
      "https://x.com/a" blankPage).1
      = Except.error "Screenshot is empty! Likely the webpage did not fully load." := by
    rfl
  refine ⟨h, ?_⟩
  rintro ⟨obs, hobs⟩
  rw [h] at hobs
  cases hobs

/-- C3 (amended): whenever observation synthesis succeeds (screenshot
non-empty and not blank), `step` returns an observation normally: an
exception raised by the executed action program never escapes — it is
converted to the textual `error_message` on the returned observation, which
is `none` exactly when the program ran without raising. -/
theorem c3_exec_errors_converted (code : String) (execExc : Option PyExc)
    (current_url : String) (page : PageState)
    (hlen : page.screenshot.length ≠ 0)
    (hblank : _is_screenshot_empty page.screenshot = false) :
    ∃ obs, (BrowserEnv.step code execExc current_url page).1 = Except.ok obs ∧
      obs.error_message = execExc.map (exec_error_message code) ∧
      (execExc = none → obs.error_message = none) ∧
      (∀ e, execExc = some e →
        obs.error_message = some (exec_error_message code e)) := by
  refine ⟨_, step_ok_of_nonblank code execExc current_url page hlen hblank,
    rfl, ?_, ?_⟩
  · rintro rfl; rfl
  · rintro e rfl; rfl

theorem c3_exec_errors_converted_witness :
    ∃ obs, (BrowserEnv.step "boom()"
        (some ⟨[⟨"<module>", "<string>", 1⟩], "name boom is not defined"⟩)
        "https://x.com/a" nonblankPage).1 = Except.ok obs ∧
      obs.error_message
        = (some ⟨[⟨"<module>", "<string>", 1⟩], "name boom is not defined"⟩
            : Option PyExc).map (exec_error_message "boom()") ∧
      ((some ⟨[⟨"<module>", "<string>", 1⟩], "name boom is not defined"⟩
          : Option PyExc) = none → obs.error_message = none) ∧
      (∀ e, (some ⟨[⟨"<module>", "<string>", 1⟩], "name boom is not defined"⟩
          : Option PyExc) = some e →
        obs.error_message = some (exec_error_message "boom()" e)) :=
  c3_exec_errors_converted "boom()"
    (some ⟨[⟨"<module>", "<string>", 1⟩], "name boom is not defined"⟩)
    "https://x.com/a" nonblankPage (by decide) (by decide)

/-- C4 counterexample: on a fully blank page, `get_observation` does raise,
but the marked-elements map is computed strictly before the blankness check
runs, contradicting the claimed ordering. -/
theorem c4_counterexample :
    List.indexOf ObsEvent.markElements (get_observation blankPage).2 <
      List.indexOf ObsEvent.blankCheck (get_observation blankPage).2 ∧
    (get_observation blankPage).1 =
      Except.error "Screenshot is empty! Likely the webpage did not fully load." := by
  constructor
  · decide
  · rfl

/-- C4 (amended): a fully blank screenshot always makes `get_observation`
raise `WebpageEmptyException` instead of returning an observation — the
check happens before the observation record is built (no field is attached
to a result) — but after the marked-elements map and the screenshot have
been computed. -/
theorem c4_blank_screenshot_raises (page : PageState)
    (hblank : _is_screenshot_empty page.screenshot = true) :
    (get_observation page).1 =
      Except.error "Screenshot is empty! Likely the webpage did not fully load." ∧
    ObsEvent.buildResult ∉ (get_observation page).2 ∧
    (get_observation page).2 =
      [ObsEvent.markElements, ObsEvent.screenshot, ObsEvent.blankCheck] := by
  unfold get_observation
  simp [hblank]

theorem c4_blank_screenshot_raises_witness :
    (get_observation blankPage).1 =
      Except.error "Screenshot is empty! Likely the webpage did not fully load." ∧
    ObsEvent.buildResult ∉ (get_observation blankPage).2 ∧
    (get_observation blankPage).2 =
      [ObsEvent.markElements, ObsEvent.screenshot, ObsEvent.blankCheck] :=
  c4_blank_screenshot_raises blankPage (by decide)

/-- String append is associative (data-level proof). -/
theorem strAppend_assoc (a b c : String) : (a ++ b) ++ c = a ++ (b ++ c) := by
  apply string_eq_of_data
  simp [String.data_append, List.append_assoc]

/-- C7 counterexample: a script whose failing line is indented produces an
error message containing only the left-stripped line text, so the message
does not contain the literal text of the failing line. -/
theorem c7_counterexample :
    exec_error_message "if True:\n    boom()"
        ⟨[⟨"<module>", "<string>", 2⟩], "name boom is not defined"⟩
      = "Error in execution of script. At line: \"boom()\". Error: \"name boom is not defined\"" ∧
    strContains
      (exec_error_message "if True:\n    boom()"
        ⟨[⟨"<module>", "<string>", 2⟩], "name boom is not defined"⟩)
      "    boom()" = false ∧
    strContains
      (exec_error_message "if True:\n    boom()"
        ⟨[⟨"<module>", "<string>", 2⟩], "name boom is not defined"⟩)
      "boom()" = true ∧
    (BrowserEnv.step "if True:\n    boom()"
        (some ⟨[⟨"<module>", "<string>", 2⟩], "name boom is not defined"⟩)
        "https://x.com/a" nonblankPage).1
      = Except.ok
          { url := "https://x.com/a"
            error_message := some
              "Error in execution of script. At line: \"boom()\". Error: \"name boom is not defined\""
            screenshot := [⟨0, 0, 0, 255⟩]
            marked_elements := []
            env_state := { timeframe := 1 } } := by
  refine ⟨by decide, by decide, by decide, by rfl⟩

/-- C7 (amended): when the traceback contains a frame of the executed script
at line `k`, the step error message embeds the text of line `k` stripped of
leading whitespace, together with the error text. -/
theorem c7_error_message_contains_line (code : String) (tb : List PyFrame)
    (f : PyFrame) (msg : String)
    (hfind : tb.find?
      (fun fr => fr.co_name = "<module>" && fr.co_filename = "<string>")
        = some f) :
    exec_error_message code ⟨tb, msg⟩ =
      "Error in execution of script. At line: \""
        ++ lstrip ((strSplit code '\n').getD (f.lineno - 1) "")
        ++ "\". Error: \"" ++ msg ++ "\"" ∧
    strContains (exec_error_message code ⟨tb, msg⟩)
      (lstrip ((strSplit code '\n').getD (f.lineno - 1) "")) = true ∧
    strContains (exec_error_message code ⟨tb, msg⟩) msg = true := by
  have hline : line_of_code code tb
      = lstrip ((strSplit code '\n').getD (f.lineno - 1) "") := by
    unfold line_of_code
    rw [hfind]
  refine ⟨?_, ?_, ?_⟩
  · unfold exec_error_message
    rw [hline]
  · unfold exec_error_message
    rw [hline]
    rw [strAppend_assoc ("Error in execution of script. At line: \""
        ++ lstrip ((strSplit code '\n').getD (f.lineno - 1) ""))
      "\". Error: \"" msg,
      strAppend_assoc ("Error in execution of script. At line: \""
        ++ lstrip ((strSplit code '\n').getD (f.lineno - 1) ""))
      ("\". Error: \"" ++ msg) "\""]
    exact strContains_of_parts "Error in execution of script. At line: \""
      (lstrip ((strSplit code '\n').getD (f.lineno - 1) ""))
      ("\". Error: \"" ++ msg ++ "\"")
  · unfold exec_error_message
    rw [hline]
    exact strContains_of_parts
      ("Error in execution of script. At line: \""
        ++ lstrip ((strSplit code '\n').getD (f.lineno - 1) "")
        ++ "\". Error: \"") msg "\""

theorem c7_error_message_contains_line_witness :
    exec_error_message "x = 1\nboom()"
        ⟨[⟨"<module>", "<string>", 2⟩], "name boom is not defined"⟩ =
      "Error in execution of script. At line: \""
        ++ lstrip ((strSplit "x = 1\nboom()" '\n').getD (2 - 1) "")
        ++ "\". Error: \"" ++ "name boom is not defined" ++ "\"" ∧
    strContains
      (exec_error_message "x = 1\nboom()"
        ⟨[⟨"<module>", "<string>", 2⟩], "name boom is not defined"⟩)
      (lstrip ((strSplit "x = 1\nboom()" '\n').getD (2 - 1) "")) = true ∧
    strContains
      (exec_error_message "x = 1\nboom()"
        ⟨[⟨"<module>", "<string>", 2⟩], "name boom is not defined"⟩)
      "name boom is not defined" = true :=
  c7_error_message_contains_line "x = 1\nboom()"
    [⟨"<module>", "<string>", 2⟩] ⟨"<module>", "<string>", 2⟩
    "name boom is not defined" (by decide)

theorem string_data_ne_nil (s : String) (h : s ≠ "") : s.data ≠ [] := by
  intro hd
  apply h
  apply string_eq_of_data
  rw [hd]

/-- Shape of `urlunparse` when a netloc is present and the path is empty or
absolute: scheme clause, then `//netloc` and the unchanged path, then the
query and fragment clauses. -/
theorem urlunparse_data_netloc (p : UrlParts) (hn : p.netloc.data ≠ [])
    (hp : p.path.data = [] ∨ p.path.data.take 1 = ['/']) :
    (urlunparse p).data =
      (if p.scheme.data ≠ [] then p.scheme.data ++ [':'] else [])
        ++ ('/' :: '/' :: (p.netloc.data ++ (p.path.data
        ++ ((if p.query.data ≠ [] then '?' :: p.query.data else [])
        ++ (if p.fragment.data ≠ [] then '#' :: p.fragment.data else []))))) := by
  have hadj : (if p.path.data ≠ [] ∧ p.path.data.take 1 ≠ ['/']
      then '/' :: p.path.data else p.path.data) = p.path.data := by
    rcases hp with h | h
    · simp [h]
    · have hno : ¬ (p.path.data ≠ [] ∧ p.path.data.take 1 ≠ ['/']) := by
        rintro ⟨h1, h2⟩
        exact h2 h
      rw [if_neg hno]
  unfold urlunparse
  simp only [hadj, if_pos (Or.inl hn)]
  by_cases hs : p.scheme.data = [] <;>
    by_cases hq : p.query.data = [] <;>
      by_cases hf : p.fragment.data = [] <;>
        simp [hs, hq, hf, List.append_assoc]

/-- C9: the load wait runs exactly when the pre- and post-step URLs differ
after stripping the query component; URLs identical but for their query
strings never trigger it, and URLs differing in path (same scheme, netloc
and fragment, non-empty netloc, empty-or-absolute paths as `urlparse`
produces) always trigger it; in particular for the two scenario pairs. -/
theorem c9_navigation_wait_query_stripped :
    (∀ current page_url : String,
      navigationWaitTriggered current page_url = true ↔
        stripQuery page_url ≠ stripQuery current) ∧
    (∀ current page_url : String,
      urlparse page_url
          = { urlparse current with query := (urlparse page_url).query } →
      navigationWaitTriggered current page_url = false) ∧
    (∀ current page_url : String,
      (urlparse page_url).scheme = (urlparse current).scheme →
      (urlparse page_url).netloc = (urlparse current).netloc →
      (urlparse page_url).fragment = (urlparse current).fragment →
      (urlparse current).netloc ≠ "" →
      (urlparse page_url).path ≠ (urlparse current).path →
      ((urlparse current).path.data = []
        ∨ (urlparse current).path.data.take 1 = ['/']) →
      ((urlparse page_url).path.data = []
        ∨ (urlparse page_url).path.data.take 1 = ['/']) →
      navigationWaitTriggered current page_url = true) ∧
    navigationWaitTriggered "https://x.com/a?x=1" "https://x.com/a?x=2" = false ∧
    navigationWaitTriggered "https://x.com/a" "https://x.com/b" = true := by
  refine ⟨?_, ?_, ?_, by decide, by decide⟩
  · intro current page_url
    unfold navigationWaitTriggered
    simp
  · intro current page_url h
    unfold navigationWaitTriggered
    simp only [decide_eq_false_iff_not, ne_eq, not_not]
    unfold stripQuery
    rw [h]
  · intro current page_url hs hn hf hnet hpath hw1 hw2
    unfold navigationWaitTriggered
    simp only [decide_eq_true_eq, ne_eq]
    intro heq
    apply hpath
    have hd := congrArg String.data heq
    unfold stripQuery at hd
    have hn1 : ({ urlparse page_url with query := "" } : UrlParts).netloc.data ≠ [] := by
      simpa [hn] using string_data_ne_nil (urlparse current).netloc hnet
    have hn2 : ({ urlparse current with query := "" } : UrlParts).netloc.data ≠ [] := by
      simpa using string_data_ne_nil (urlparse current).netloc hnet
    rw [urlunparse_data_netloc _ hn1 (by simpa using hw2),
        urlunparse_data_netloc _ hn2 (by simpa using hw1)] at hd
    simp only [hs, hn, hf] at hd
    have hd2 := List.append_cancel_left hd
    simp only [List.cons.injEq, true_and] at hd2
    have hd3 := List.append_cancel_left hd2
    have hd4 := List.append_cancel_right hd3
    exact string_eq_of_data _ _ hd4

theorem c9_navigation_wait_query_stripped_witness :
    navigationWaitTriggered "https://x.com/a?x=1" "https://x.com/a?x=2" = false ∧
    navigationWaitTriggered "https://x.com/a" "https://x.com/b" = true :=
  ⟨c9_navigation_wait_query_stripped.2.1 "https://x.com/a?x=1"
      "https://x.com/a?x=2" (by decide),
   c9_navigation_wait_query_stripped.2.2.1 "https://x.com/a" "https://x.com/b"
      (by decide) (by decide) (by decide) (by decide) (by decide) (by decide)
      (by decide)⟩
